import Mathlib

/-!
Verification of the open-sandboxes core: the SSH transport
(`src/open_sandboxes/ssh_connection/base.py`), the sandbox orchestrator
(`src/open_sandboxes/sandbox.py`) and the pyproject manifest builder
(`src/open_sandboxes/uv_config/config_pyproject.py`), shallowly embedded in
Lean.  Python f-strings are modelled as the concatenation of their literal
and interpolated segments; the `\`-newlines inside the triple-quoted
f-string of `run_code` are Python line continuations and therefore absent
from the assembled command.
-/

/-- The state of `SSHConnection` (base.py lines 32-56): the stored fields.
The paramiko client itself is abstracted away; `is_connected` models
`self._is_connected`, `is_passphrase` models `self._is_passphrase`. -/
structure SSHConnection where
  host : String
  port : Int
  username : String
  key_file : Option String
  password : String
  is_passphrase : Bool
  is_connected : Bool

/-- `SSHConnection.__init__` (base.py lines 32-56): credential validation and
authentication-mode selection.  Raised `ValueError`s become `Except.error`. -/
def SSHConnection.init (host : String) (port : Int) (username : String)
    (password passphrase key_file : Option String) : Except String SSHConnection :=
  match password, passphrase with
  | none, none =>
      Except.error "You must provide one of password and passphrase"
  | some pw, none =>
      Except.ok ⟨host, port, username, none, pw, false, false⟩
  | pwOpt, some pp =>
      match key_file with
      | none =>
          match pwOpt with
          | some pw => Except.ok ⟨host, port, username, none, pw, false, false⟩
          | none => Except.error
              "If you provide a passhprase, you must also provide the file where the private key is stored"
      | some kf => Except.ok ⟨host, port, username, some kf, pp, true, false⟩

/-- `SSHConnection._connect` (base.py lines 58-75): establishes the session
and records `self._is_connected = True`.  The network handshake is abstracted;
only the state transition is modelled. -/
def SSHConnection.connect (c : SSHConnection) : SSHConnection :=
  ⟨c.host, c.port, c.username, c.key_file, c.password, c.is_passphrase, true⟩

/-- `ExecCommandResponse` (models.py): captured stdout and stderr text. -/
structure ExecCommandResponse where
  stdout : String
  stderr : String

/-- The remote side as an oracle: what paramiko's `exec_command` captures for a
given command string and timeout. -/
abbrev RemoteExec : Type := String → Option ℚ → ExecCommandResponse

/-- `SSHConnection.execute_command` (base.py lines 77-100): connect lazily when
`_is_connected` is false, run the command, return captured stdout/stderr. -/
def SSHConnection.execute_command (exec : RemoteExec) (c : SSHConnection)
    (command : String) (timeout : Option ℚ) : ExecCommandResponse × SSHConnection :=
  let c2 := if c.is_connected then c else c.connect
  (exec command timeout, c2)

/-- A sequence of `execute_command` calls on one connection, counting how many
of them ran `_connect` (which happens exactly when `_is_connected` is false at
the call, base.py lines 95-96). -/
def SSHConnection.runCalls (exec : RemoteExec) (c : SSHConnection) :
    List (String × Option ℚ) → SSHConnection × Nat
  | [] => (c, 0)
  | (cmd, t) :: rest =>
      let didConnect := !c.is_connected
      let step := SSHConnection.execute_command exec c cmd t
      let tail := SSHConnection.runCalls exec step.2 rest
      (tail.1, (if didConnect then 1 else 0) + tail.2)

/-- `PyprojectDependency` (models.py): a name and a version-constraint string. -/
structure PyprojectDependency where
  name : String
  version_constraints : String

/-- `PyprojectConfig` (config_pyproject.py lines 6-29).  The dataclass defaults
(title "my-project", versions "3.13"/"4") are supplied by callers explicitly. -/
structure PyprojectConfig where
  dependencies : List PyprojectDependency
  title : String
  python_min_version : String
  python_max_version : String

/-- Python `str.strip(chars)`: remove leading and trailing characters drawn
from `chars`. -/
def pyStrip (chars s : List Char) : List Char :=
  ((s.dropWhile (chars.contains ·)).reverse.dropWhile (chars.contains ·)).reverse

/-- One iteration's appended text in `to_str`'s loop:
`f'    "{name}{version_constraints}",\n'`. -/
def depLine (d : PyprojectDependency) : String :=
  "    \"" ++ d.name ++ d.version_constraints ++ "\",\n"

/-- The `deps` accumulator of `to_str` (config_pyproject.py lines 32-35): each
iteration appends a line and then strips "," and newline characters from both
ends of the whole accumulator. -/
def PyprojectConfig.depsText (cfg : PyprojectConfig) : String :=
  cfg.dependencies.foldl (fun acc d => ⟨pyStrip [',', '\n'] (acc ++ depLine d).data⟩) ""

/-- `PyprojectConfig.to_str` (config_pyproject.py lines 31-45). -/
def PyprojectConfig.to_str (cfg : PyprojectConfig) : String :=
  "\n[project]\nname = \"" ++ cfg.title ++
  "\"\nversion = \"0.1.0\"\ndescription = \"Add your description here\"\nrequires-python = \">=" ++
  cfg.python_min_version ++ ",<" ++ cfg.python_max_version ++
  "\"\ndependencies = [\n    " ++ cfg.depsText ++ "\n]\n"

/-- What `Path(p).exists()` / `Path(p).is_file()` observe about a path. -/
inductive FSEntry
  | file (contents : String)
  | dir
  | missing
deriving DecidableEq

/-- The `Sandbox` state after `__init__`: name, connection and the stored
manifest text `self.pyproject`. -/
structure Sandbox where
  name : String
  remote_connection : SSHConnection
  pyproject : String

/-- `Sandbox.__init__` (sandbox.py lines 31-52).  `fs` models the filesystem
consulted by `Path(...).exists()` / `is_file()` and by `open(...).read()`. -/
def Sandbox.init (fs : String → FSEntry) (name : String)
    (remote_connection : SSHConnection) (config : Option PyprojectConfig)
    (pyproject_file_path : Option String) : Except String Sandbox :=
  match config, pyproject_file_path with
  | none, none =>
      Except.error "You need to provide either a configuration or the path to a pyproject file"
  | some _, some _ =>
      Except.error "You can provide either a configuration or the path to a pyproject file, not both"
  | some cfg, none => Except.ok ⟨name, remote_connection, cfg.to_str⟩
  | none, some p =>
      match fs p with
      | FSEntry.file contents => Except.ok ⟨name, remote_connection, contents⟩
      | FSEntry.dir => Except.error "The provided path either does not exist or is not a file"
      | FSEntry.missing => Except.error "The provided path either does not exist or is not a file"

/-- A Python number (int or float) as `run_code` observes one: its `str()`
rendering and whether it is falsy (zero).  `cpus` is only tested for
truthiness (`cpus or 1`) and interpolated into the f-string. -/
structure PyNum where
  str : String
  isZero : Bool

/-- Python `x or d` for an optional number whose falsy value is zero. -/
def pyOrNum (x : Option PyNum) (d : PyNum) : PyNum :=
  match x with
  | none => d
  | some v => if v.isZero then d else v

/-- Python `x or d` for an optional int (falsy value: 0). -/
def pyOrInt (x : Option Int) (d : Int) : Int :=
  match x with
  | none => d
  | some v => if v = 0 then d else v

/-- Python `x or d` for an optional string (falsy value: ""). -/
def pyOrStr (x : Option String) (d : String) : String :=
  match x with
  | none => d
  | some v => if v = "" then d else v

/-- Python `sep.join(parts)`: parts interleaved with the separator. -/
def pyJoin (sep : String) : List String → String
  | [] => ""
  | [s] => s
  | s :: rest => s ++ sep ++ pyJoin sep rest

/-- One `export K='V'` assignment of `_get_env_exports` (sandbox.py line 102). -/
def exportAssign (kv : String × String) : String :=
  "export " ++ kv.1 ++ "='" ++ kv.2 ++ "'"

/-- `Sandbox._get_env_exports` (sandbox.py lines 99-103): one export per entry,
joined by " && " (`" && ".join(exports)`), in the mapping's iteration order (a
dict iterates in insertion order, modelled by the list order). -/
def Sandbox.get_env_exports (environment : List (String × String)) : String :=
  pyJoin " && " (environment.map exportAssign)

/-- Python truthiness of the optional `environment` dict (`if environment:`). -/
def envTruthy : Option (List (String × String)) → Bool
  | none => false
  | some l => !l.isEmpty

/-- `s.replace("'", "'\\''")` on the character list: each single quote becomes
the four characters quote, backslash, quote, quote. -/
def escapeSQList : List Char → List Char
  | [] => []
  | c :: cs =>
      if c = '\'' then '\'' :: '\\' :: '\'' :: '\'' :: escapeSQList cs
      else c :: escapeSQList cs

/-- `s.replace("'", "'\\''")` (sandbox.py lines 144-145). -/
def escapeSQ (s : String) : String := ⟨escapeSQList s.data⟩

/-- Concatenation of a list of strings, in order: a Python f-string is exactly
the concatenation of its literal and interpolated segments. -/
def concatStrs : List String → String
  | [] => ""
  | s :: rest => s ++ concatStrs rest

/-- The `docker run` head of the command (sandbox.py lines 148 and 161), split
at the interpolation points, up to and including the quote that opens the
`/bin/sh -c` argument. -/
def dockerSegs (P C M R W : String) : List String :=
  ["docker run --pids-limit ", P, " --cpus ", C, " -m ", M,
   "m --device-read-bps=/dev/sda:", R, " --device-write-bps=/dev/sda:", W,
   " --rm ghcr.io/astral-sh/uv:alpine /bin/sh -c '"]

/-- The script inside the `/bin/sh -c` argument (sandbox.py lines 150-158),
split at the interpolation points.  The `\`-newline pairs of the source are
Python line continuations, so `mkdir`, `cat`, `cd` and `uv run` are joined by
" && " on single lines. -/
def scriptSegs (name pyprojectText codeText : String) : List String :=
  ["mkdir -p /tmp/", name, " && cat > /tmp/", name, "/pyproject.toml << \"EOF\"\n",
   pyprojectText, "\nEOF\ncat > /tmp/", name, "/script.py << \"EOF\"\n",
   codeText, "\nEOF\ncd /tmp/", name, "/ && uv run script.py\n"]

/-- The command string assembled by `Sandbox.run_code` (sandbox.py lines
139-171): resource defaults via `or`, single-quote escaping of the manifest
and code texts, and the branch on `if environment:`. -/
def Sandbox.runCodeCommand (name pyproject code : String)
    (environment : Option (List (String × String)))
    (cpus : Option PyNum) (memory : Option Int) (processes : Option Int)
    (read_rate : Option String) (write_rate : Option String) : String :=
  let cpu_limit := pyOrNum cpus ⟨"1", false⟩
  let memory_limit := pyOrInt memory 512
  let processes_limit := pyOrInt processes 100
  let read_rate_limit := pyOrStr read_rate "10mb"
  let write_rate_limit := pyOrStr write_rate "10mb"
  let pyproject_escaped := escapeSQ pyproject
  let code_escaped := escapeSQ code
  if envTruthy environment then
    concatStrs (dockerSegs (toString processes_limit) cpu_limit.str
        (toString memory_limit) read_rate_limit write_rate_limit
      ++ ["\n", Sandbox.get_env_exports (environment.getD []), " && "]
      ++ scriptSegs name pyproject_escaped code_escaped ++ ["'"])
  else
    concatStrs (dockerSegs (toString processes_limit) cpu_limit.str
        (toString memory_limit) read_rate_limit write_rate_limit
      ++ ["\n"] ++ scriptSegs name pyproject_escaped code_escaped ++ ["'"])

/-- `CodeOutput` (models.py): the result record of `run_code`. -/
structure CodeOutput where
  output : String
  error : String

/-- `Sandbox.run_code` (sandbox.py lines 105-173): assemble the command,
delegate it to `execute_command` with the caller's timeout, and map the
response to `{output: stdout, error: stderr}`. -/
def Sandbox.run_code (exec : RemoteExec) (self : Sandbox)
    (code : String) (timeout : Option ℚ)
    (environment : Option (List (String × String)))
    (cpus : Option PyNum) (memory : Option Int) (processes : Option Int)
    (read_rate : Option String) (write_rate : Option String) :
    CodeOutput × SSHConnection :=
  let command := Sandbox.runCodeCommand self.name self.pyproject code environment
    cpus memory processes read_rate write_rate
  let result := SSHConnection.execute_command exec self.remote_connection command timeout
  (⟨result.1.stdout, result.1.stderr⟩, result.2)

/-! ### Substring machinery -/

/-- `sub` occurs contiguously in `s`. -/
def lcontains (s sub : List Char) : Prop := ∃ l r, s = l ++ (sub ++ r)

/-- Executable substring check. -/
def containsB (s sub : List Char) : Bool := s.tails.any (fun t => sub.isPrefixOf t)

theorem isPrefixOf_eq_true : ∀ (l t : List Char), l.isPrefixOf t = true ↔ ∃ r, t = l ++ r
  | [], t => by simp [List.isPrefixOf]
  | a :: l, [] => by simp [List.isPrefixOf]
  | a :: l, b :: t => by
      simp only [List.isPrefixOf, Bool.and_eq_true, beq_iff_eq, isPrefixOf_eq_true l t,
        List.cons_append, List.cons.injEq]
      aesop

theorem mem_tails_iff (t s : List Char) : t ∈ s.tails ↔ ∃ p, s = p ++ t := by
  rw [List.mem_tails]
  constructor
  · rintro ⟨p, rfl⟩
    exact ⟨p, rfl⟩
  · rintro ⟨p, rfl⟩
    exact ⟨p, rfl⟩

theorem containsB_eq_true (s sub : List Char) : containsB s sub = true ↔ lcontains s sub := by
  unfold containsB lcontains
  rw [List.any_eq_true]
  constructor
  · rintro ⟨t, ht, hp⟩
    obtain ⟨p, rfl⟩ := (mem_tails_iff t s).mp ht
    obtain ⟨r, rfl⟩ := (isPrefixOf_eq_true sub t).mp hp
    exact ⟨p, r, rfl⟩
  · rintro ⟨l, r, rfl⟩
    exact ⟨sub ++ r, (mem_tails_iff _ _).mpr ⟨l, rfl⟩, (isPrefixOf_eq_true _ _).mpr ⟨r, rfl⟩⟩

theorem lcontains_self (s : List Char) : lcontains s s := ⟨[], [], by simp⟩

theorem lcontains_append_left {a : List Char} (b : List Char) {sub : List Char}
    (h : lcontains a sub) : lcontains (a ++ b) sub := by
  obtain ⟨l, r, rfl⟩ := h
  exact ⟨l, r ++ b, by simp⟩

theorem lcontains_append_right (a : List Char) {b sub : List Char}
    (h : lcontains b sub) : lcontains (a ++ b) sub := by
  obtain ⟨l, r, rfl⟩ := h
  exact ⟨a ++ l, r, by simp⟩

theorem concatStrs_data_append : ∀ (a b : List String),
    (concatStrs (a ++ b)).data = (concatStrs a).data ++ (concatStrs b).data
  | [], b => by simp [concatStrs]
  | s :: a, b => by
      simp [concatStrs, String.data_append, concatStrs_data_append a b]

/-- Containment of a substring of the middle group of segments in the
concatenation of all the segments. -/
theorem concat_split (pre mid post : List String) {sub : List Char}
    (h : lcontains (concatStrs mid).data sub) :
    lcontains (concatStrs (pre ++ (mid ++ post))).data sub := by
  rw [concatStrs_data_append, concatStrs_data_append]
  exact lcontains_append_right _ (lcontains_append_left _ h)

theorem pyJoin_mem {α : Type} (sep : String) (f : α → String) :
    ∀ (l : List α) (x : α), x ∈ l → lcontains (pyJoin sep (l.map f)).data (f x).data
  | [], x, hx => absurd hx (List.not_mem_nil x)
  | [a], x, hx => by
      rcases List.mem_singleton.mp hx with rfl
      exact lcontains_self _
  | a :: b :: rest, x, hx => by
      rcases List.mem_cons.mp hx with rfl | hx2
      · show lcontains ((f x ++ sep ++ pyJoin sep ((b :: rest).map f))).data (f x).data
        rw [String.data_append, String.data_append]
        exact lcontains_append_left _ (lcontains_append_left _ (lcontains_self _))
      · show lcontains ((f a ++ sep ++ pyJoin sep ((b :: rest).map f))).data (f x).data
        rw [String.data_append]
        exact lcontains_append_right _ (pyJoin_mem sep f (b :: rest) x hx2)

/-! ### Shell single-quote interpretation -/

/-- POSIX shell quote removal restricted to the quoting constructs present in
the assembled command: inside a single-quoted region every character is
literal until the next single quote; outside, a backslash escapes the next
character and a single quote opens a region.  Returns the literal content the
remote shell receives as the `/bin/sh -c` argument, or `none` when a quoted
region is left unterminated. -/
def shUnquoteAux : Bool → List Char → Option (List Char)
  | true, [] => none
  | true, '\'' :: cs => shUnquoteAux false cs
  | true, c :: cs => (shUnquoteAux true cs).map (c :: ·)
  | false, [] => some []
  | false, '\'' :: cs => shUnquoteAux true cs
  | false, '\\' :: d :: ds => (shUnquoteAux false ds).map (d :: ·)
  | false, ['\\'] => none
  | false, c :: cs => (shUnquoteAux false cs).map (c :: ·)

/-- A segment of the single-quoted script: either plain text embedded as-is,
or caller text embedded through the single-quote escaping of `run_code`. -/
inductive ShSeg
  | plain (s : List Char)
  | esc (s : List Char)

/-- The characters a segment contributes to the command. -/
def ShSeg.raw : ShSeg → List Char
  | plain s => s
  | esc s => escapeSQList s

/-- The characters the remote shell should receive for a segment. -/
def ShSeg.clear : ShSeg → List Char
  | plain s => s
  | esc s => s

def shRaw (l : List ShSeg) : List Char := (l.map ShSeg.raw).flatten

def shClear (l : List ShSeg) : List Char := (l.map ShSeg.clear).flatten

theorem shUnquoteAux_quote_inside (t : List Char) :
    shUnquoteAux true ('\'' :: t) = shUnquoteAux false t := by
  simp [shUnquoteAux]

theorem shUnquoteAux_quote_outside (t : List Char) :
    shUnquoteAux false ('\'' :: t) = shUnquoteAux true t := by
  simp [shUnquoteAux]

theorem shUnquoteAux_backslash (d : Char) (ds : List Char) :
    shUnquoteAux false ('\\' :: d :: ds) = (shUnquoteAux false ds).map (d :: ·) := by
  simp [shUnquoteAux]

theorem shUnquoteAux_other (c : Char) (hc : c ≠ '\'') (t : List Char) :
    shUnquoteAux true (c :: t) = (shUnquoteAux true t).map (c :: ·) := by
  simp [shUnquoteAux, hc]

theorem shUnquoteAux_plain (s : List Char) (h : '\'' ∉ s) (t : List Char) :
    shUnquoteAux true (s ++ t) = (shUnquoteAux true t).map (s ++ ·) := by
  induction s with
  | nil => cases h2 : shUnquoteAux true t <;> simp [h2]
  | cons c cs ih =>
      have hc : c ≠ '\'' := fun hc => h (hc ▸ List.mem_cons_self c cs)
      have h2 : '\'' ∉ cs := fun hm => h (List.mem_cons_of_mem _ hm)
      rw [List.cons_append, shUnquoteAux_other c hc, ih h2]
      cases shUnquoteAux true t <;> simp

theorem shUnquoteAux_esc (s t : List Char) :
    shUnquoteAux true (escapeSQList s ++ t) = (shUnquoteAux true t).map (s ++ ·) := by
  induction s with
  | nil => cases h2 : shUnquoteAux true t <;> simp [escapeSQList, h2]
  | cons c cs ih =>
      by_cases hc : c = '\''
      · subst hc
        have he : escapeSQList ('\'' :: cs) = '\'' :: '\\' :: '\'' :: '\'' :: escapeSQList cs := by
          simp [escapeSQList]
        rw [he, List.cons_append, List.cons_append, List.cons_append, List.cons_append,
          shUnquoteAux_quote_inside, shUnquoteAux_backslash, shUnquoteAux_quote_outside, ih]
        cases shUnquoteAux true t <;> simp
      · have he : escapeSQList (c :: cs) = c :: escapeSQList cs := by
          simp [escapeSQList, hc]
        rw [he, List.cons_append, shUnquoteAux_other c hc, ih]
        cases shUnquoteAux true t <;> simp

theorem shUnquoteAux_segs : ∀ l : List ShSeg,
    (∀ s, ShSeg.plain s ∈ l → '\'' ∉ s) →
    shUnquoteAux true (shRaw l ++ ['\'']) = some (shClear l)
  | [], _ => rfl
  | ShSeg.plain s :: l, h => by
      have h1 : '\'' ∉ s := h s (List.mem_cons_self _ _)
      have h2 : ∀ s2, ShSeg.plain s2 ∈ l → '\'' ∉ s2 :=
        fun s2 hm => h s2 (List.mem_cons_of_mem _ hm)
      show shUnquoteAux true ((ShSeg.plain s).raw ++ shRaw l ++ ['\'']) = _
      rw [List.append_assoc, ShSeg.raw, shUnquoteAux_plain s h1, shUnquoteAux_segs l h2]
      simp [shClear, ShSeg.clear]
  | ShSeg.esc s :: l, h => by
      have h2 : ∀ s2, ShSeg.plain s2 ∈ l → '\'' ∉ s2 :=
        fun s2 hm => h s2 (List.mem_cons_of_mem _ hm)
      show shUnquoteAux true ((ShSeg.esc s).raw ++ shRaw l ++ ['\'']) = _
      rw [List.append_assoc, ShSeg.raw, shUnquoteAux_esc s, shUnquoteAux_segs l h2]
      simp [shClear, ShSeg.clear]

/-- Wrapping the raw text of well-formed segments in single quotes and running
shell quote removal on it recovers exactly the clear text. -/
theorem shUnquote_quoted (l : List ShSeg) (h : ∀ s, ShSeg.plain s ∈ l → '\'' ∉ s) :
    shUnquoteAux false ('\'' :: (shRaw l ++ ['\''])) = some (shClear l) := by
  rw [shUnquoteAux_quote_outside]
  exact shUnquoteAux_segs l h

/-! ### Claim theorems -/

/-- C2: for every credential combination passed to `SSHConnection.__init__`:
password only (with or without a key file) succeeds in password mode;
passphrase plus key file succeeds in key mode (with or without a password);
passphrase with a password but no key file succeeds in password mode;
passphrase with neither key file nor password fails; neither password nor
passphrase fails. -/
theorem ssh_connection_credential_modes (host : String) (port : Int)
    (u pw pp kf : String) :
    (∀ kfOpt : Option String, SSHConnection.init host port u (some pw) none kfOpt
        = Except.ok ⟨host, port, u, none, pw, false, false⟩)
  ∧ SSHConnection.init host port u (some pw) (some pp) (some kf)
        = Except.ok ⟨host, port, u, some kf, pp, true, false⟩
  ∧ SSHConnection.init host port u none (some pp) (some kf)
        = Except.ok ⟨host, port, u, some kf, pp, true, false⟩
  ∧ SSHConnection.init host port u (some pw) (some pp) none
        = Except.ok ⟨host, port, u, none, pw, false, false⟩
  ∧ SSHConnection.init host port u none (some pp) none
        = Except.error
            "If you provide a passhprase, you must also provide the file where the private key is stored"
  ∧ SSHConnection.init host port u none none none
        = Except.error "You must provide one of password and passphrase" :=
  ⟨fun _ => rfl, rfl, rfl, rfl, rfl, rfl⟩

/-- C3: `Sandbox.__init__` accepts exactly one of a manifest object or a
manifest file path: both absent fails, both present fails, a missing path or a
non-file path fails; with a manifest object the stored text is the object's
rendered text, with a valid path it is the file's contents read at
construction. -/
theorem sandbox_construction_contract (fs : String → FSEntry) (name : String)
    (conn : SSHConnection) (cfg : PyprojectConfig) (p : String) (contents : String) :
    Sandbox.init fs name conn none none
        = Except.error "You need to provide either a configuration or the path to a pyproject file"
  ∧ Sandbox.init fs name conn (some cfg) (some p)
        = Except.error "You can provide either a configuration or the path to a pyproject file, not both"
  ∧ Sandbox.init fs name conn (some cfg) none = Except.ok ⟨name, conn, cfg.to_str⟩
  ∧ (fs p = FSEntry.missing → Sandbox.init fs name conn none (some p)
        = Except.error "The provided path either does not exist or is not a file")
  ∧ (fs p = FSEntry.dir → Sandbox.init fs name conn none (some p)
        = Except.error "The provided path either does not exist or is not a file")
  ∧ (fs p = FSEntry.file contents → Sandbox.init fs name conn none (some p)
        = Except.ok ⟨name, conn, contents⟩) := by
  refine ⟨rfl, rfl, rfl, fun h => ?_, fun h => ?_, fun h => ?_⟩ <;>
    simp [Sandbox.init, h]

/-- C3 witness: the contract evaluated at a concrete filesystem holding one
file and one directory. -/
theorem sandbox_construction_contract_witness :
    ((fun s => if s = "good.toml" then FSEntry.file "content" else
        if s = "somedir" then FSEntry.dir else FSEntry.missing) "missing.toml" = FSEntry.missing
      ∧ Sandbox.init (fun s => if s = "good.toml" then FSEntry.file "content" else
          if s = "somedir" then FSEntry.dir else FSEntry.missing)
          "sandbox-1" ⟨"h", 22, "u", none, "pw", false, false⟩ none (some "missing.toml")
        = Except.error "The provided path either does not exist or is not a file")
  ∧ ((fun s => if s = "good.toml" then FSEntry.file "content" else
        if s = "somedir" then FSEntry.dir else FSEntry.missing) "somedir" = FSEntry.dir
      ∧ Sandbox.init (fun s => if s = "good.toml" then FSEntry.file "content" else
          if s = "somedir" then FSEntry.dir else FSEntry.missing)
          "sandbox-1" ⟨"h", 22, "u", none, "pw", false, false⟩ none (some "somedir")
        = Except.error "The provided path either does not exist or is not a file")
  ∧ ((fun s => if s = "good.toml" then FSEntry.file "content" else
        if s = "somedir" then FSEntry.dir else FSEntry.missing) "good.toml" = FSEntry.file "content"
      ∧ Sandbox.init (fun s => if s = "good.toml" then FSEntry.file "content" else
          if s = "somedir" then FSEntry.dir else FSEntry.missing)
          "sandbox-1" ⟨"h", 22, "u", none, "pw", false, false⟩ none (some "good.toml")
        = Except.ok ⟨"sandbox-1", ⟨"h", 22, "u", none, "pw", false, false⟩, "content"⟩) :=
  ⟨⟨by decide, (sandbox_construction_contract _ "sandbox-1" _ ⟨[], "t", "3.13", "4"⟩
      "missing.toml" "content").2.2.2.1 (by decide)⟩,
   ⟨by decide, (sandbox_construction_contract _ "sandbox-1" _ ⟨[], "t", "3.13", "4"⟩
      "somedir" "content").2.2.2.2.1 (by decide)⟩,
   ⟨by decide, (sandbox_construction_contract _ "sandbox-1" _ ⟨[], "t", "3.13", "4"⟩
      "good.toml" "content").2.2.2.2.2 (by decide)⟩⟩

/-- C7: `run_code` passes the assembled command to the transport's
`execute_command` with the caller's timeout forwarded unchanged, and returns
exactly the record mapping the captured stdout to `output` and the captured
stderr to `error`, with no further interpretation. -/
theorem run_code_delegates_and_maps (exec : RemoteExec) (sb : Sandbox)
    (code : String) (timeout : Option ℚ)
    (environment : Option (List (String × String)))
    (cpus : Option PyNum) (memory processes : Option Int)
    (read_rate write_rate : Option String) :
    (Sandbox.run_code exec sb code timeout environment cpus memory processes
        read_rate write_rate).1
      = ⟨(exec (Sandbox.runCodeCommand sb.name sb.pyproject code environment cpus
            memory processes read_rate write_rate) timeout).stdout,
         (exec (Sandbox.runCodeCommand sb.name sb.pyproject code environment cpus
            memory processes read_rate write_rate) timeout).stderr⟩ := rfl

/-- Helper for C8: on an already-connected transport a sequence of
`execute_command` calls never reconnects and leaves the state unchanged. -/
theorem runCalls_connected (exec : RemoteExec) (c : SSHConnection)
    (hc : c.is_connected = true) :
    ∀ calls, SSHConnection.runCalls exec c calls = (c, 0)
  | [] => rfl
  | (cmd, t) :: rest => by
      simp [SSHConnection.runCalls, SSHConnection.execute_command, hc,
        runCalls_connected exec c hc rest]

/-- C8: over any sequence of `execute_command` calls on one connection, the
session is established exactly once, on the first call (when the state is
unconnected), and an already-connected transport never reconnects. -/
theorem execute_command_connects_once (exec : RemoteExec) (c : SSHConnection)
    (calls : List (String × Option ℚ)) :
    (c.is_connected = false → calls ≠ [] →
      (SSHConnection.runCalls exec c calls).2 = 1
      ∧ ((SSHConnection.runCalls exec c calls).1).is_connected = true)
  ∧ (c.is_connected = true → SSHConnection.runCalls exec c calls = (c, 0)) := by
  constructor
  · intro hc hne
    match calls, hne with
    | (cmd, t) :: rest, _ =>
      have h2 : (SSHConnection.connect c).is_connected = true := rfl
      simp [SSHConnection.runCalls, SSHConnection.execute_command, hc, h2,
        runCalls_connected exec (SSHConnection.connect c) h2 rest]
  · intro hc
    exact runCalls_connected exec c hc calls

/-- C8 witness: a fresh connection and two calls give exactly one connect. -/
theorem execute_command_connects_once_witness :
    ((⟨"h", 22, "u", none, "pw", false, false⟩ : SSHConnection).is_connected = false)
  ∧ ((SSHConnection.runCalls (fun _ _ => ⟨"", ""⟩)
        ⟨"h", 22, "u", none, "pw", false, false⟩ [("a", none), ("b", none)]).2 = 1
      ∧ ((SSHConnection.runCalls (fun _ _ => ⟨"", ""⟩)
        ⟨"h", 22, "u", none, "pw", false, false⟩ [("a", none), ("b", none)]).1).is_connected = true) :=
  ⟨rfl, (execute_command_connects_once (fun _ _ => ⟨"", ""⟩)
      ⟨"h", 22, "u", none, "pw", false, false⟩ [("a", none), ("b", none)]).1 rfl (by simp)⟩

/-- C9: `to_str` at two dependencies.  The `deps = deps.strip(",\n")` inside
the loop removes the separating comma after every appended entry, so the two
array entries are rendered with no comma between them — an ill-formed array,
contradicting the intended pyproject.toml grammar. -/
theorem to_str_two_deps_eval :
    PyprojectConfig.to_str
        ⟨[⟨"typing-extensions", "<5"⟩, ⟨"pydantic", ">=2"⟩], "test-project", "3.13", "4"⟩
      = "\n[project]\nname = \"test-project\"\nversion = \"0.1.0\"\ndescription = \"Add your description here\"\nrequires-python = \">=3.13,<4\"\ndependencies = [\n        \"typing-extensions<5\"    \"pydantic>=2\"\n]\n" := by
  rfl

/-- Containment of `sub` in the string `s`. -/
def strContains (s sub : String) : Prop := lcontains s.data sub.data

/-- The assembled command always starts with the docker segment list built
from the `or`-resolved resource limits, for some tail of segments. -/
theorem runCodeCommand_segs (name py code : String)
    (e : Option (List (String × String))) (cp : Option PyNum)
    (m pr : Option Int) (rr wr : Option String) :
    ∃ tail : List String,
      Sandbox.runCodeCommand name py code e cp m pr rr wr
        = concatStrs (dockerSegs (toString (pyOrInt pr 100)) (pyOrNum cp ⟨"1", false⟩).str
            (toString (pyOrInt m 512)) (pyOrStr rr "10mb") (pyOrStr wr "10mb") ++ tail) := by
  match e with
  | none =>
      exact ⟨["\n"] ++ scriptSegs name (escapeSQ py) (escapeSQ code) ++ ["'"], rfl⟩
  | some [] =>
      exact ⟨["\n"] ++ scriptSegs name (escapeSQ py) (escapeSQ code) ++ ["'"], rfl⟩
  | some (kv :: rest) =>
      exact ⟨["\n", Sandbox.get_env_exports (kv :: rest), " && "]
        ++ scriptSegs name (escapeSQ py) (escapeSQ code) ++ ["'"], rfl⟩

/-- C4: for every `run_code` call, each omitted resource option contributes
exactly its documented default to the assembled command: `--pids-limit 100`,
`--cpus 1`, `-m 512m`, `--device-read-bps=/dev/sda:10mb` and
`--device-write-bps=/dev/sda:10mb`. -/
theorem run_code_default_limits (name py code : String)
    (e : Option (List (String × String))) (cp : Option PyNum)
    (m pr : Option Int) (rr wr : Option String) :
    (pr = none →
      strContains (Sandbox.runCodeCommand name py code e cp m pr rr wr) "--pids-limit 100")
  ∧ (cp = none →
      strContains (Sandbox.runCodeCommand name py code e cp m pr rr wr) "--cpus 1")
  ∧ (m = none →
      strContains (Sandbox.runCodeCommand name py code e cp m pr rr wr) "-m 512m")
  ∧ (rr = none →
      strContains (Sandbox.runCodeCommand name py code e cp m pr rr wr)
        "--device-read-bps=/dev/sda:10mb")
  ∧ (wr = none →
      strContains (Sandbox.runCodeCommand name py code e cp m pr rr wr)
        "--device-write-bps=/dev/sda:10mb") := by
  refine ⟨fun h => ?_, fun h => ?_, fun h => ?_, fun h => ?_, fun h => ?_⟩
  · subst h
    obtain ⟨tail, heq⟩ := runCodeCommand_segs name py code e cp m none rr wr
    rw [strContains, heq]
    exact concat_split [] ["docker run --pids-limit ", "100"]
      ([" --cpus ", (pyOrNum cp ⟨"1", false⟩).str, " -m ", toString (pyOrInt m 512),
        "m --device-read-bps=/dev/sda:", pyOrStr rr "10mb",
        " --device-write-bps=/dev/sda:", pyOrStr wr "10mb",
        " --rm ghcr.io/astral-sh/uv:alpine /bin/sh -c '"] ++ tail)
      ((containsB_eq_true _ _).mp (by decide))
  · subst h
    obtain ⟨tail, heq⟩ := runCodeCommand_segs name py code e none m pr rr wr
    rw [strContains, heq]
    exact concat_split ["docker run --pids-limit ", toString (pyOrInt pr 100)]
      [" --cpus ", "1"]
      ([" -m ", toString (pyOrInt m 512), "m --device-read-bps=/dev/sda:", pyOrStr rr "10mb",
        " --device-write-bps=/dev/sda:", pyOrStr wr "10mb",
        " --rm ghcr.io/astral-sh/uv:alpine /bin/sh -c '"] ++ tail)
      ((containsB_eq_true _ _).mp (by decide))
  · subst h
    obtain ⟨tail, heq⟩ := runCodeCommand_segs name py code e cp none pr rr wr
    rw [strContains, heq]
    exact concat_split ["docker run --pids-limit ", toString (pyOrInt pr 100),
        " --cpus ", (pyOrNum cp ⟨"1", false⟩).str]
      [" -m ", "512", "m --device-read-bps=/dev/sda:"]
      ([pyOrStr rr "10mb", " --device-write-bps=/dev/sda:", pyOrStr wr "10mb",
        " --rm ghcr.io/astral-sh/uv:alpine /bin/sh -c '"] ++ tail)
      ((containsB_eq_true _ _).mp (by decide))
  · subst h
    obtain ⟨tail, heq⟩ := runCodeCommand_segs name py code e cp m pr none wr
    rw [strContains, heq]
    exact concat_split ["docker run --pids-limit ", toString (pyOrInt pr 100),
        " --cpus ", (pyOrNum cp ⟨"1", false⟩).str, " -m ", toString (pyOrInt m 512)]
      ["m --device-read-bps=/dev/sda:", "10mb"]
      ([" --device-write-bps=/dev/sda:", pyOrStr wr "10mb",
        " --rm ghcr.io/astral-sh/uv:alpine /bin/sh -c '"] ++ tail)
      ((containsB_eq_true _ _).mp (by decide))
  · subst h
    obtain ⟨tail, heq⟩ := runCodeCommand_segs name py code e cp m pr rr none
    rw [strContains, heq]
    exact concat_split ["docker run --pids-limit ", toString (pyOrInt pr 100),
        " --cpus ", (pyOrNum cp ⟨"1", false⟩).str, " -m ", toString (pyOrInt m 512),
        "m --device-read-bps=/dev/sda:", pyOrStr rr "10mb"]
      [" --device-write-bps=/dev/sda:", "10mb"]
      ([" --rm ghcr.io/astral-sh/uv:alpine /bin/sh -c '"] ++ tail)
      ((containsB_eq_true _ _).mp (by decide))

/-- C4 witness: the all-defaults call contains all five documented defaults. -/
theorem run_code_default_limits_witness :
    strContains (Sandbox.runCodeCommand "sandbox-1" "x" "print('hello world!')"
        none none none none none none) "--pids-limit 100"
  ∧ strContains (Sandbox.runCodeCommand "sandbox-1" "x" "print('hello world!')"
        none none none none none none) "--cpus 1"
  ∧ strContains (Sandbox.runCodeCommand "sandbox-1" "x" "print('hello world!')"
        none none none none none none) "-m 512m"
  ∧ strContains (Sandbox.runCodeCommand "sandbox-1" "x" "print('hello world!')"
        none none none none none none) "--device-read-bps=/dev/sda:10mb"
  ∧ strContains (Sandbox.runCodeCommand "sandbox-1" "x" "print('hello world!')"
        none none none none none none) "--device-write-bps=/dev/sda:10mb" :=
  ⟨(run_code_default_limits "sandbox-1" "x" "print('hello world!')"
      none none none none none none).1 rfl,
   (run_code_default_limits "sandbox-1" "x" "print('hello world!')"
      none none none none none none).2.1 rfl,
   (run_code_default_limits "sandbox-1" "x" "print('hello world!')"
      none none none none none none).2.2.1 rfl,
   (run_code_default_limits "sandbox-1" "x" "print('hello world!')"
      none none none none none none).2.2.2.1 rfl,
   (run_code_default_limits "sandbox-1" "x" "print('hello world!')"
      none none none none none none).2.2.2.2 rfl⟩

set_option maxRecDepth 100000 in
/-- C5 counterexample: `memory` is supplied as 0 by the caller, yet the
assembled command does not contain `-m 0m` — Python's `memory or 512` treats
the falsy supplied value as omitted and the command carries `-m 512m`
instead, so a supplied option is not always reflected verbatim. -/
theorem run_code_verbatim_limits_cex :
    (¬ strContains (Sandbox.runCodeCommand "sandbox-1" "x" "print(1)"
        none none (some 0) none none none) "-m 0m")
  ∧ strContains (Sandbox.runCodeCommand "sandbox-1" "x" "print(1)"
        none none (some 0) none none none) "-m 512m" := by
  constructor
  · intro h
    have hb := (containsB_eq_true _ _).mpr h
    have hf : containsB (Sandbox.runCodeCommand "sandbox-1" "x" "print(1)"
        none none (some 0) none none none).data ("-m 0m" : String).data = false := by decide
    rw [hf] at hb
    exact Bool.false_ne_true hb
  · exact (containsB_eq_true _ _).mp (by decide)

/-- C5 amended: for every `run_code` call in which a resource option is
supplied with a Python-truthy value (a nonzero number, a non-empty string),
the assembled command contains the supplied value verbatim in the
corresponding flag position; a falsy supplied value (zero, empty string) is
replaced by the default via `or`. -/
theorem run_code_truthy_limits_verbatim (name py code : String)
    (e : Option (List (String × String))) (cp : Option PyNum)
    (m pr : Option Int) (rr wr : Option String) :
    (∀ c : PyNum, cp = some c → c.isZero = false →
      strContains (Sandbox.runCodeCommand name py code e cp m pr rr wr)
        (" --cpus " ++ c.str ++ " -m "))
  ∧ (∀ mv : Int, m = some mv → mv ≠ 0 →
      strContains (Sandbox.runCodeCommand name py code e cp m pr rr wr)
        (" -m " ++ toString mv ++ "m --device-read-bps=/dev/sda:"))
  ∧ (∀ pv : Int, pr = some pv → pv ≠ 0 →
      strContains (Sandbox.runCodeCommand name py code e cp m pr rr wr)
        ("--pids-limit " ++ toString pv ++ " --cpus "))
  ∧ (∀ rv : String, rr = some rv → rv ≠ "" →
      strContains (Sandbox.runCodeCommand name py code e cp m pr rr wr)
        ("--device-read-bps=/dev/sda:" ++ rv ++ " --device-write-bps=/dev/sda:"))
  ∧ (∀ wv : String, wr = some wv → wv ≠ "" →
      strContains (Sandbox.runCodeCommand name py code e cp m pr rr wr)
        ("--device-write-bps=/dev/sda:" ++ wv ++ " --rm ")) := by
  refine ⟨fun c hcp hc => ?_, fun mv hm hmv => ?_, fun pv hp hpv => ?_,
    fun rv hr hrv => ?_, fun wv hw hwv => ?_⟩
  · subst hcp
    obtain ⟨tail, heq⟩ := runCodeCommand_segs name py code e (some c) m pr rr wr
    have hval : pyOrNum (some c) ⟨"1", false⟩ = c := by simp [pyOrNum, hc]
    rw [strContains, heq, hval]
    exact concat_split ["docker run --pids-limit ", toString (pyOrInt pr 100)]
      [" --cpus ", c.str, " -m "]
      ([toString (pyOrInt m 512), "m --device-read-bps=/dev/sda:", pyOrStr rr "10mb",
        " --device-write-bps=/dev/sda:", pyOrStr wr "10mb",
        " --rm ghcr.io/astral-sh/uv:alpine /bin/sh -c '"] ++ tail)
      ⟨[], [], by simp [concatStrs, String.data_append]⟩
  · subst hm
    obtain ⟨tail, heq⟩ := runCodeCommand_segs name py code e cp (some mv) pr rr wr
    have hval : pyOrInt (some mv) 512 = mv := by simp [pyOrInt, hmv]
    rw [strContains, heq, hval]
    exact concat_split ["docker run --pids-limit ", toString (pyOrInt pr 100),
        " --cpus ", (pyOrNum cp ⟨"1", false⟩).str]
      [" -m ", toString mv, "m --device-read-bps=/dev/sda:"]
      ([pyOrStr rr "10mb", " --device-write-bps=/dev/sda:", pyOrStr wr "10mb",
        " --rm ghcr.io/astral-sh/uv:alpine /bin/sh -c '"] ++ tail)
      ⟨[], [], by simp [concatStrs, String.data_append]⟩
  · subst hp
    obtain ⟨tail, heq⟩ := runCodeCommand_segs name py code e cp m (some pv) rr wr
    have hval : pyOrInt (some pv) 100 = pv := by simp [pyOrInt, hpv]
    rw [strContains, heq, hval]
    have hdr : ("docker run --pids-limit " : String).data
        = ("docker run " : String).data ++ ("--pids-limit " : String).data := by decide
    exact concat_split []
      ["docker run --pids-limit ", toString pv, " --cpus "]
      ([(pyOrNum cp ⟨"1", false⟩).str, " -m ", toString (pyOrInt m 512),
        "m --device-read-bps=/dev/sda:", pyOrStr rr "10mb",
        " --device-write-bps=/dev/sda:", pyOrStr wr "10mb",
        " --rm ghcr.io/astral-sh/uv:alpine /bin/sh -c '"] ++ tail)
      ⟨("docker run " : String).data, [],
        by simp [concatStrs, String.data_append, hdr]⟩
  · subst hr
    obtain ⟨tail, heq⟩ := runCodeCommand_segs name py code e cp m pr (some rv) wr
    have hval : pyOrStr (some rv) "10mb" = rv := by simp [pyOrStr, hrv]
    rw [strContains, heq, hval]
    have hdm : ("m --device-read-bps=/dev/sda:" : String).data
        = 'm' :: ' ' :: ("--device-read-bps=/dev/sda:" : String).data := by decide
    exact concat_split ["docker run --pids-limit ", toString (pyOrInt pr 100),
        " --cpus ", (pyOrNum cp ⟨"1", false⟩).str, " -m ", toString (pyOrInt m 512)]
      ["m --device-read-bps=/dev/sda:", rv, " --device-write-bps=/dev/sda:"]
      ([pyOrStr wr "10mb", " --rm ghcr.io/astral-sh/uv:alpine /bin/sh -c '"] ++ tail)
      ⟨['m', ' '], [], by simp [concatStrs, String.data_append, hdm]⟩
  · subst hw
    obtain ⟨tail, heq⟩ := runCodeCommand_segs name py code e cp m pr rr (some wv)
    have hval : pyOrStr (some wv) "10mb" = wv := by simp [pyOrStr, hwv]
    rw [strContains, heq, hval]
    have hdw : (" --device-write-bps=/dev/sda:" : String).data
        = ' ' :: ("--device-write-bps=/dev/sda:" : String).data := by decide
    have hrm : (" --rm ghcr.io/astral-sh/uv:alpine /bin/sh -c '" : String).data
        = (" --rm " : String).data
          ++ ("ghcr.io/astral-sh/uv:alpine /bin/sh -c '" : String).data := by decide
    exact concat_split ["docker run --pids-limit ", toString (pyOrInt pr 100),
        " --cpus ", (pyOrNum cp ⟨"1", false⟩).str, " -m ", toString (pyOrInt m 512),
        "m --device-read-bps=/dev/sda:", pyOrStr rr "10mb"]
      [" --device-write-bps=/dev/sda:", wv, " --rm ghcr.io/astral-sh/uv:alpine /bin/sh -c '"]
      tail
      ⟨[' '], ("ghcr.io/astral-sh/uv:alpine /bin/sh -c '" : String).data,
        by simp [concatStrs, String.data_append, hdw, hrm]⟩

/-- C5 witness: the spec's scenario values all appear verbatim in their flag
positions. -/
theorem run_code_truthy_limits_verbatim_witness :
    strContains (Sandbox.runCodeCommand "sandbox-1" "x" "print('hello world!')"
        (some [("OPENAI_API_KEY", "test-key"), ("PYTHONBUFFERED", "1")])
        (some ⟨"1.5", false⟩) (some 100) (some 10) (some "1mb") (some "2mb"))
      " --cpus 1.5 -m "
  ∧ strContains (Sandbox.runCodeCommand "sandbox-1" "x" "print('hello world!')"
        (some [("OPENAI_API_KEY", "test-key"), ("PYTHONBUFFERED", "1")])
        (some ⟨"1.5", false⟩) (some 100) (some 10) (some "1mb") (some "2mb"))
      " -m 100m --device-read-bps=/dev/sda:"
  ∧ strContains (Sandbox.runCodeCommand "sandbox-1" "x" "print('hello world!')"
        (some [("OPENAI_API_KEY", "test-key"), ("PYTHONBUFFERED", "1")])
        (some ⟨"1.5", false⟩) (some 100) (some 10) (some "1mb") (some "2mb"))
      "--pids-limit 10 --cpus "
  ∧ strContains (Sandbox.runCodeCommand "sandbox-1" "x" "print('hello world!')"
        (some [("OPENAI_API_KEY", "test-key"), ("PYTHONBUFFERED", "1")])
        (some ⟨"1.5", false⟩) (some 100) (some 10) (some "1mb") (some "2mb"))
      "--device-read-bps=/dev/sda:1mb --device-write-bps=/dev/sda:"
  ∧ strContains (Sandbox.runCodeCommand "sandbox-1" "x" "print('hello world!')"
        (some [("OPENAI_API_KEY", "test-key"), ("PYTHONBUFFERED", "1")])
        (some ⟨"1.5", false⟩) (some 100) (some 10) (some "1mb") (some "2mb"))
      "--device-write-bps=/dev/sda:2mb --rm " :=
  ⟨(run_code_truthy_limits_verbatim "sandbox-1" "x" "print('hello world!')"
      (some [("OPENAI_API_KEY", "test-key"), ("PYTHONBUFFERED", "1")])
      (some ⟨"1.5", false⟩) (some 100) (some 10) (some "1mb") (some "2mb")).1
        ⟨"1.5", false⟩ rfl rfl,
   (run_code_truthy_limits_verbatim "sandbox-1" "x" "print('hello world!')"
      (some [("OPENAI_API_KEY", "test-key"), ("PYTHONBUFFERED", "1")])
      (some ⟨"1.5", false⟩) (some 100) (some 10) (some "1mb") (some "2mb")).2.1
        100 rfl (by decide),
   (run_code_truthy_limits_verbatim "sandbox-1" "x" "print('hello world!')"
      (some [("OPENAI_API_KEY", "test-key"), ("PYTHONBUFFERED", "1")])
      (some ⟨"1.5", false⟩) (some 100) (some 10) (some "1mb") (some "2mb")).2.2.1
        10 rfl (by decide),
   (run_code_truthy_limits_verbatim "sandbox-1" "x" "print('hello world!')"
      (some [("OPENAI_API_KEY", "test-key"), ("PYTHONBUFFERED", "1")])
      (some ⟨"1.5", false⟩) (some 100) (some 10) (some "1mb") (some "2mb")).2.2.2.1
        "1mb" rfl (by decide),
   (run_code_truthy_limits_verbatim "sandbox-1" "x" "print('hello world!')"
      (some [("OPENAI_API_KEY", "test-key"), ("PYTHONBUFFERED", "1")])
      (some ⟨"1.5", false⟩) (some 100) (some 10) (some "1mb") (some "2mb")).2.2.2.2
        "2mb" rfl (by decide)⟩

set_option maxRecDepth 100000 in
/-- C6 amended: for a non-empty environment mapping the assembled command
contains one `export K='V'` assignment per entry, joined by " && ", in the
mapping's iteration order, between the opening newline and the script; for an
empty or absent mapping the export segment is omitted entirely (the command
is exactly the docker invocation followed by the script body), and in
particular the representative defaults-only call contains no export token
anywhere (the token can reappear only through caller-supplied texts). -/
theorem run_code_env_exports (name py code : String) (cp : Option PyNum)
    (m pr : Option Int) (rr wr : Option String) :
    (∀ l : List (String × String), l ≠ [] →
      Sandbox.runCodeCommand name py code (some l) cp m pr rr wr
        = concatStrs (dockerSegs (toString (pyOrInt pr 100)) (pyOrNum cp ⟨"1", false⟩).str
            (toString (pyOrInt m 512)) (pyOrStr rr "10mb") (pyOrStr wr "10mb")
          ++ ["\n", pyJoin " && " (l.map exportAssign), " && "]
          ++ scriptSegs name (escapeSQ py) (escapeSQ code) ++ ["'"]))
  ∧ (∀ e : Option (List (String × String)), envTruthy e = false →
      Sandbox.runCodeCommand name py code e cp m pr rr wr
        = concatStrs (dockerSegs (toString (pyOrInt pr 100)) (pyOrNum cp ⟨"1", false⟩).str
            (toString (pyOrInt m 512)) (pyOrStr rr "10mb") (pyOrStr wr "10mb")
          ++ ["\n"] ++ scriptSegs name (escapeSQ py) (escapeSQ code) ++ ["'"]))
  ∧ containsB (Sandbox.runCodeCommand "sandbox-1" "x" "print('hello world!')"
        none none none none none none).data ("export" : String).data = false := by
  refine ⟨fun l hl => ?_, fun e he => ?_, by decide⟩
  · match l, hl with
    | kv :: rest, _ => rfl
  · match e with
    | none => rfl
    | some [] => rfl
    | some (kv :: rest) => exact absurd he (by simp [envTruthy])

/-- C6 witness: the amended statement at the spec's scenario inputs — two
environment entries render as two exports joined by " && " in order, and the
defaults-only call carries no export segment. -/
theorem run_code_env_exports_witness :
    Sandbox.runCodeCommand "sandbox-1" "x" "print('hello world!')"
        (some [("OPENAI_API_KEY", "test-key"), ("PYTHONBUFFERED", "1")])
        none none none none none
      = concatStrs (dockerSegs "100" "1" "512" "10mb" "10mb"
          ++ ["\n", "export OPENAI_API_KEY='test-key' && export PYTHONBUFFERED='1'", " && "]
          ++ scriptSegs "sandbox-1" (escapeSQ "x") (escapeSQ "print('hello world!')") ++ ["'"])
  ∧ Sandbox.runCodeCommand "sandbox-1" "x" "print('hello world!')"
        none none none none none none
      = concatStrs (dockerSegs "100" "1" "512" "10mb" "10mb"
          ++ ["\n"] ++ scriptSegs "sandbox-1" (escapeSQ "x") (escapeSQ "print('hello world!')") ++ ["'"]) :=
  ⟨(run_code_env_exports "sandbox-1" "x" "print('hello world!')" none none none none none).1
      [("OPENAI_API_KEY", "test-key"), ("PYTHONBUFFERED", "1")] (List.cons_ne_nil _ _),
   (run_code_env_exports "sandbox-1" "x" "print('hello world!')" none none none none none).2.1
      none rfl⟩

set_option maxRecDepth 100000 in
/-- C6 counterexample: with an absent environment mapping but a code text that
itself contains the word export, the assembled command does contain the
export token, so the claim's "no export token appears anywhere in the
assembled command" is false as stated. -/
theorem run_code_no_env_export_cex :
    strContains (Sandbox.runCodeCommand "sandbox-1" "x" "export FOO=1\nprint(1)"
        none none none none none none) "export" :=
  (containsB_eq_true _ _).mp (by decide)

/-- The docker head of the command up to `/bin/sh -c ` exclusive of the quote
that opens the script argument (the last literal of `dockerSegs` split before
its final quote character). -/
def dockerHeadSegs (P C M R W : String) : List String :=
  ["docker run --pids-limit ", P, " --cpus ", C, " -m ", M,
   "m --device-read-bps=/dev/sda:", R, " --device-write-bps=/dev/sda:", W,
   " --rm ghcr.io/astral-sh/uv:alpine /bin/sh -c "]

set_option maxRecDepth 400000 in
/-- C10: the single-quote neutralization is not applied to environment
values: every entry of the mapping appears in the assembled command as
`export K='V'` with the value embedded verbatim between single quotes.
Consequently a value containing a single quote injects an unescaped quote:
for the value "it's" the command splits as head plus a quoted argument on
which shell quote removal fails (unterminated quoting) instead of recovering
a script. -/
theorem env_values_embedded_verbatim :
    (∀ (name py code : String) (l : List (String × String)) (cp : Option PyNum)
        (m pr : Option Int) (rr wr : Option String) (k v : String), (k, v) ∈ l →
      strContains (Sandbox.runCodeCommand name py code (some l) cp m pr rr wr)
        ("export " ++ k ++ "='" ++ v ++ "'"))
  ∧ (Sandbox.runCodeCommand "sandbox-1" "x" "print(1)" (some [("K", "it's")])
        none none none none none).data
      = (concatStrs (dockerHeadSegs "100" "1" "512" "10mb" "10mb")).data
        ++ ('\'' :: (("\n" ++ Sandbox.get_env_exports [("K", "it's")] ++ " && "
            ++ concatStrs (scriptSegs "sandbox-1" "x" "print(1)")).data ++ ['\'']))
  ∧ shUnquoteAux false
      ('\'' :: (("\n" ++ Sandbox.get_env_exports [("K", "it's")] ++ " && "
          ++ concatStrs (scriptSegs "sandbox-1" "x" "print(1)")).data ++ ['\''])) = none := by
  refine ⟨?_, by decide, by decide⟩
  intro name py code l cp m pr rr wr k v hmem
  match l, List.ne_nil_of_mem hmem with
  | kv :: rest, _ =>
    have h := pyJoin_mem " && " exportAssign (kv :: rest) (k, v) hmem
    have hmid : lcontains (concatStrs [pyJoin " && " ((kv :: rest).map exportAssign)]).data
        (("export " ++ k ++ "='" ++ v ++ "'") : String).data := by
      simpa [concatStrs, String.data_append, exportAssign] using h
    rw [strContains]
    exact concat_split
      (dockerSegs (toString (pyOrInt pr 100)) (pyOrNum cp ⟨"1", false⟩).str
        (toString (pyOrInt m 512)) (pyOrStr rr "10mb") (pyOrStr wr "10mb") ++ ["\n"])
      [pyJoin " && " ((kv :: rest).map exportAssign)]
      ([" && "] ++ scriptSegs name (escapeSQ py) (escapeSQ code) ++ ["'"])
      hmid

/-- C10 witness: the single-entry mapping with value "it's" yields its export
assignment verbatim inside the assembled command. -/
theorem env_values_embedded_verbatim_witness :
    strContains (Sandbox.runCodeCommand "sandbox-1" "x" "print(1)"
        (some [("K", "it's")]) none none none none none) "export K='it's'" :=
  env_values_embedded_verbatim.1 "sandbox-1" "x" "print(1)" [("K", "it's")]
    none none none none none "K" "it's" (by simp)

/-- Characterization of the replacement: each single quote becomes the four
characters quote, backslash, quote, quote; every other character is kept. -/
theorem escapeSQList_eq_flatten : ∀ s : List Char,
    escapeSQList s
      = (s.map (fun ch => if ch = '\'' then ['\'', '\\', '\'', '\''] else [ch])).flatten
  | [] => rfl
  | c :: cs => by
      by_cases hc : c = '\''
      · subst hc
        simp [escapeSQList, escapeSQList_eq_flatten cs]
      · simp [escapeSQList, hc, escapeSQList_eq_flatten cs]

/-- The script between the outer single quotes, as escaping segments: the
literal scaffolding and the sandbox name are embedded as-is, the manifest and
the code texts through `escapeSQ`. -/
def scriptShSegs (name pyproject code : String) : List ShSeg :=
  [ShSeg.plain ("\n" : String).data,
   ShSeg.plain ("mkdir -p /tmp/" : String).data, ShSeg.plain name.data,
   ShSeg.plain (" && cat > /tmp/" : String).data, ShSeg.plain name.data,
   ShSeg.plain ("/pyproject.toml << \"EOF\"\n" : String).data, ShSeg.esc pyproject.data,
   ShSeg.plain ("\nEOF\ncat > /tmp/" : String).data, ShSeg.plain name.data,
   ShSeg.plain ("/script.py << \"EOF\"\n" : String).data, ShSeg.esc code.data,
   ShSeg.plain ("\nEOF\ncd /tmp/" : String).data, ShSeg.plain name.data,
   ShSeg.plain ("/ && uv run script.py\n" : String).data]

/-- C1: `run_code` embeds the manifest and code texts through the single-quote
replacement (each quote becomes quote backslash quote quote), the assembled
command is the docker head followed by one single-quoted argument holding the
raw segments, and shell quote removal on that argument succeeds and hands the
remote shell exactly the script with both original texts byte-for-byte. -/
theorem run_code_escapes_single_quotes (name pyproject code : String)
    (cp : Option PyNum) (m pr : Option Int) (rr wr : Option String)
    (hname : '\'' ∉ name.data) :
    (∀ s : String, (escapeSQ s).data
        = (s.data.map (fun ch => if ch = '\'' then ['\'', '\\', '\'', '\''] else [ch])).flatten)
  ∧ (Sandbox.runCodeCommand name pyproject code none cp m pr rr wr).data
      = (concatStrs (dockerHeadSegs (toString (pyOrInt pr 100)) (pyOrNum cp ⟨"1", false⟩).str
          (toString (pyOrInt m 512)) (pyOrStr rr "10mb") (pyOrStr wr "10mb"))).data
        ++ ('\'' :: (shRaw (scriptShSegs name pyproject code) ++ ['\'']))
  ∧ shUnquoteAux false ('\'' :: (shRaw (scriptShSegs name pyproject code) ++ ['\'']))
      = some (("\n" ++ concatStrs (scriptSegs name pyproject code)).data) := by
  refine ⟨fun s => escapeSQList_eq_flatten s.data, ?_, ?_⟩
  · have hq : (" --rm ghcr.io/astral-sh/uv:alpine /bin/sh -c '" : String).data
        = (" --rm ghcr.io/astral-sh/uv:alpine /bin/sh -c " : String).data ++ ['\''] := by
      decide
    show (concatStrs (dockerSegs (toString (pyOrInt pr 100)) (pyOrNum cp ⟨"1", false⟩).str
          (toString (pyOrInt m 512)) (pyOrStr rr "10mb") (pyOrStr wr "10mb")
        ++ ["\n"] ++ scriptSegs name (escapeSQ pyproject) (escapeSQ code) ++ ["'"])).data = _
    simp [dockerSegs, dockerHeadSegs, scriptSegs, scriptShSegs, concatStrs, shRaw,
      ShSeg.raw, String.data_append, hq, escapeSQ, List.append_assoc]
  · have hplains : ∀ s, ShSeg.plain s ∈ scriptShSegs name pyproject code → '\'' ∉ s := by
      intro s hs
      simp only [scriptShSegs, List.mem_cons, List.not_mem_nil, or_false] at hs
      rcases hs with h | h | h | h | h | h | h | h | h | h | h | h | h | h <;>
        first
          | (injection h with h2; subst h2; decide)
          | (injection h with h2; subst h2; exact hname)
          | exact absurd h (by simp)
    rw [shUnquote_quoted (scriptShSegs name pyproject code) hplains]
    simp [shClear, scriptShSegs, ShSeg.clear, scriptSegs, concatStrs,
      String.data_append, List.append_assoc]

/-- C1 witness: the escaping theorem at a name free of quotes and manifest and
code texts that both contain single quotes. -/
theorem run_code_escapes_single_quotes_witness :
    ('\'' ∉ ("sandbox-1" : String).data)
  ∧ ((∀ s : String, (escapeSQ s).data
        = (s.data.map (fun ch => if ch = '\'' then ['\'', '\\', '\'', '\''] else [ch])).flatten)
    ∧ (Sandbox.runCodeCommand "sandbox-1" "a'b" "print('hello world!')"
          none none none none none none).data
        = (concatStrs (dockerHeadSegs "100" "1" "512" "10mb" "10mb")).data
          ++ ('\'' :: (shRaw (scriptShSegs "sandbox-1" "a'b" "print('hello world!')") ++ ['\'']))
    ∧ shUnquoteAux false
          ('\'' :: (shRaw (scriptShSegs "sandbox-1" "a'b" "print('hello world!')") ++ ['\'']))
        = some (("\n" ++ concatStrs (scriptSegs "sandbox-1" "a'b" "print('hello world!')")).data)) :=
  ⟨by decide, run_code_escapes_single_quotes "sandbox-1" "a'b" "print('hello world!')"
      none none none none none (by decide)⟩
